import Mathlib

/-!
# Story Graph media-sync application: formal model

A shallow embedding of the Story Graph multicam synchronisation app
(TypeScript/React).  Pure computations are translated into executable Lean
definitions; browser/network effects are abstracted as explicit oracles.

JavaScript numbers are modelled as `Option ℚ` where `none` stands for a
non-finite value (`NaN` or `±Infinity`); every code path exercised by the
claims stays within finite rationals, where the model is exact.
-/

set_option maxRecDepth 4096

/-! ## JavaScript numeric string semantics -/

/-- Numeric value of a list of decimal digit characters. -/
def digitsVal (l : List Char) : Nat :=
  l.foldl (fun a c => 10 * a + (c.toNat - 48)) 0

/-- Sign handling shared by the JS numeric conversions: an optional leading
`-` or `+` followed by the remaining characters. -/
def stripSign (l : List Char) : Bool × List Char :=
  match l with
  | '-' :: t => (true, t)
  | '+' :: t => (false, t)
  | t => (false, t)

/-- A parsed decimal numeral: sign, integer-part value, fraction-part value
and fraction-part digit count. -/
structure NumParts where
  neg : Bool
  ip : Nat
  fp : Nat
  fplen : Nat
  deriving Repr, DecidableEq

/-- Rational value of a parsed decimal numeral. -/
def NumParts.val (p : NumParts) : ℚ :=
  let v : ℚ := (p.ip : ℚ) + (p.fp : ℚ) / (10 : ℚ) ^ p.fplen
  if p.neg then -v else v

/-- `parseInt(s, 10)`: optional sign, then the longest leading run of digits;
`none` models `NaN` (no leading digits). Trailing junk is ignored. -/
def jsParseInt (s : String) : Option Int :=
  let (neg, l) := stripSign s.data
  let ds := l.takeWhile Char.isDigit
  if ds.isEmpty then none
  else some (if neg then -(digitsVal ds : Int) else (digitsVal ds : Int))

/-- Digit-level part of `parseFloat(s)`: optional sign, leading digits,
optional decimal point and further digits; the longest valid numeric prefix
is used, trailing junk (e.g. the `/1001` in `"30000/1001"`) is ignored.
`none` models `NaN`. -/
def jsParseFloatCore (l : List Char) : Option NumParts :=
  let (neg, l) := stripSign l
  let ip := l.takeWhile Char.isDigit
  let rest := l.drop ip.length
  let fp : List Char :=
    match rest with
    | '.' :: t => t.takeWhile Char.isDigit
    | _ => []
  if ip.isEmpty && fp.isEmpty then none
  else some ⟨neg, digitsVal ip, digitsVal fp, fp.length⟩

/-- `parseFloat(s)` on the `Option ℚ` number model. -/
def jsParseFloat (s : String) : Option ℚ :=
  (jsParseFloatCore s.data).map NumParts.val

/-- Digit-level part of `Number(s)`: the whole string must be a decimal
numeral; the empty string converts to `0`; anything else is `NaN`. -/
def jsNumberCore (l : List Char) : Option NumParts :=
  if l.isEmpty then some ⟨false, 0, 0, 0⟩
  else
    let (neg, l) := stripSign l
    let ip := l.takeWhile Char.isDigit
    let rest := l.drop ip.length
    let fp : List Char :=
      match rest with
      | '.' :: t => t.takeWhile Char.isDigit
      | _ => []
    let consumed := ip.length + (if rest.isEmpty then 0 else 1 + fp.length)
    if (ip.isEmpty && fp.isEmpty) || consumed ≠ l.length then none
    else some ⟨neg, digitsVal ip, digitsVal fp, fp.length⟩

/-- `Number(s)` as used by `.split('/').map(Number)`. -/
def jsNumber (s : String) : Option ℚ :=
  (jsNumberCore s.data).map NumParts.val

/-- JavaScript division on the `Option ℚ` number model: division by zero
yields a non-finite value (`Infinity` or `NaN`), collapsed to `none`. -/
def jsDiv (a b : Option ℚ) : Option ℚ :=
  match a, b with
  | some x, some y => if y = 0 then none else some (x / y)
  | _, _ => none

/-- `s.split('/')` on the character list of `s`. -/
def splitSlash : List Char → List (List Char)
  | [] => [[]]
  | '/' :: t => [] :: splitSlash t
  | c :: t =>
    match splitSlash t with
    | [] => [[c]]
    | p :: ps => (c :: p) :: ps

/-- Shared frame-rate parsing idiom of the source: a string containing `/`
is split as an exact rational fraction (`"30000/1001"`) via
`split('/').map(Number)`, otherwise it is read as a decimal (`"25.000"`). -/
def parseFPSValue (fpsString : String) : Option ℚ :=
  if fpsString.data.contains '/' then
    let parts := splitSlash fpsString.data
    jsDiv ((jsNumberCore (parts.getD 0 [])).map NumParts.val)
      ((jsNumberCore (parts.getD 1 [])).map NumParts.val)
  else jsParseFloat fpsString

/-! ## Data model (`src/types.ts`) -/

inductive MediaCategory
  | video
  | audio
  deriving Repr, DecidableEq

inductive ClipType
  | interview
  | broll
  | unknown
  deriving Repr, DecidableEq

/-- `TechnicalMetadata` interface. -/
structure TechnicalMetadata where
  start_tc : String
  codec_id : String
  width : Int
  height : Int
  frame_rate_fraction : String
  total_frames : String
  deriving Repr, DecidableEq

/-- `MediaFile` interface.  Optional fields are `Option`; a JS field holding
a string where the empty string is falsy keeps the string and is tested for
emptiness where the source tests truthiness. -/
structure MediaFile where
  drive_id : String
  filename : String
  md5_checksum : String
  size_bytes : Int
  mime_type : String
  sync_offset_frames : Int
  duration : Option Int := none
  media_category : MediaCategory
  clip_type : ClipType
  operation_id : Option String := none
  analysis_content : Option String := none
  last_forensic_stage : Option String := none
  tech_metadata : Option TechnicalMetadata := none
  relative_path : Option String := none
  deriving Repr, DecidableEq

/-! ## Multicam timeline assembler (`src/services/useRegistry.ts`,
`generateXML` of the `StoryGraph_Multicam_Sync` exporter, lines 95-404) -/

namespace MulticamExporter

/-- `files.find(f => f.media_category === 'video' && f.tech_metadata?.frame_rate_fraction)`. -/
def firstVideo (files : List MediaFile) : Option MediaFile :=
  files.find? fun f =>
    f.media_category = MediaCategory.video &&
      (match f.tech_metadata with
       | some tm => tm.frame_rate_fraction ≠ ""
       | none => false)

/-- Project timebase selection (lines 97-114): returns
`(TIMELINE_FPS, IS_NTSC)`.  `TIMELINE_FPS = Math.round(fpsValue)` is `none`
when the rate string parses to `NaN`; `IS_NTSC = fpsValue % 1 !== 0`, which
holds for every non-integral finite rate and also for `NaN`. -/
def timebaseOf (files : List MediaFile) : Option Int × Bool :=
  match firstVideo files with
  | none => (some 25, false)
  | some f =>
    let fpsString := (f.tech_metadata.map TechnicalMetadata.frame_rate_fraction).getD ""
    match parseFPSValue fpsString with
    | none => (none, true)
    | some q => (some (round q), q.den ≠ 1)

/-- Native frame rate lookup inside `getSafeDuration` (lines 136-143):
`file.tech_metadata.frame_rate_fraction || "25"`, then the shared parse. -/
def nativeFPSOf (tm : TechnicalMetadata) : Option ℚ :=
  parseFPSValue (if tm.frame_rate_fraction ≠ "" then tm.frame_rate_fraction else "25")

/-- `getSafeDuration` (lines 124-162).  Method 1: a present, positive
`total_frames` is converted from the native rate to the timeline rate via
`Math.round((totalFrames / nativeFPS) * TIMELINE_FPS)`.  Method 2: positive
millisecond duration via `Math.round((duration / 1000) * TIMELINE_FPS)`.
Method 3: the fixed 250-frame fallback.  `none` models a non-finite result
(unparseable or zero native rate). -/
def getSafeDuration (TIMELINE_FPS : Int) (file : MediaFile) : Option Int :=
  let fallback : Option Int :=
    match file.duration with
    | some d => if d > 0 then some (round ((d : ℚ) / 1000 * (TIMELINE_FPS : ℚ))) else some 250
    | none => some 250
  match file.tech_metadata with
  | some tm =>
    if tm.total_frames ≠ "" then
      match jsParseInt tm.total_frames with
      | some totalFrames =>
        if totalFrames > 0 then
          match nativeFPSOf tm with
          | some nativeFPS =>
            if nativeFPS = 0 then none
            else some (round ((totalFrames : ℚ) / nativeFPS * (TIMELINE_FPS : ℚ)))
          | none => none
        else fallback
      | none => fallback
    else fallback
  | none => fallback

/-- A present `total_frames` string parsing to a positive integer. -/
def positiveTotalFrames (file : MediaFile) : Bool :=
  match file.tech_metadata with
  | some tm =>
    tm.total_frames ≠ "" &&
      (match jsParseInt tm.total_frames with
       | some n => n > 0
       | none => false)
  | none => false

end MulticamExporter

/-! ## Current timeline assembler (`src/services/useXMLExporter.ts`,
`generateXML` of the `StoryGraph_Sync` exporter, the one imported by the
live `App.tsx`) -/

namespace SyncExporter

/-- `const rawFPS = firstVideo?.tech_metadata?.frame_rate_fraction || "25"`
(line 10); `firstVideo` is the same search as in the multicam exporter
(line 9). -/
def rawFPS (files : List MediaFile) : String :=
  let s :=
    match MulticamExporter.firstVideo files with
    | some f => (f.tech_metadata.map TechnicalMetadata.frame_rate_fraction).getD ""
    | none => ""
  if s = "" then "25" else s

/-- `const FPS_NUM = parseFloat(rawFPS)` (line 13): note that `parseFloat`
reads only the numeric prefix of a fraction string. -/
def FPS_NUM (files : List MediaFile) : Option ℚ :=
  jsParseFloat (rawFPS files)

/-- `const TIMEBASE = Math.round(FPS_NUM)` (line 14); `none` models a `NaN`
timebase. -/
def TIMEBASE (files : List MediaFile) : Option Int :=
  (FPS_NUM files).map round

/-- `const IS_NTSC = FPS_NUM % 1 !== 0 ? "TRUE" : "FALSE"` (line 15);
`NaN % 1 !== 0` evaluates to `true`. -/
def IS_NTSC (files : List MediaFile) : Bool :=
  match FPS_NUM files with
  | none => true
  | some q => q.den ≠ 1

/-- `getSafeDuration` (lines 24-32): a truthy `total_frames` string is
returned from `parseInt` as-is, with no rate conversion and no positivity
check; otherwise a positive millisecond duration is converted at `FPS_NUM`;
otherwise the fixed 100-frame minimum. -/
def getSafeDuration (FPS_NUM : Option ℚ) (file : MediaFile) : Option Int :=
  let fallback : Option Int :=
    match file.duration with
    | some d =>
      if d > 0 then FPS_NUM.map (fun q => round ((d : ℚ) / 1000 * q)) else some 100
    | none => some 100
  match file.tech_metadata with
  | some tm => if tm.total_frames ≠ "" then jsParseInt tm.total_frames else fallback
  | none => fallback

/-- One `<clipitem>` of the emitted sequence, with the numeric fields the
source writes into the XML template (frame numbers may be `NaN`, hence
`Option Int`). -/
structure ClipItem where
  id : String
  name : String
  duration : Option Int
  start : Int
  endFrame : Option Int
  inPoint : Int
  outPoint : Option Int
  deriving Repr, DecidableEq

/-- `files.filter(f => f.media_category === 'video' && f.clip_type === 'interview')` (line 50). -/
def videoAngles (files : List MediaFile) : List MediaFile :=
  files.filter fun f =>
    f.media_category = MediaCategory.video && f.clip_type = ClipType.interview

/-- `files.filter(f => f.media_category === 'audio' && f.clip_type === 'interview')` (line 51). -/
def masterAudio (files : List MediaFile) : List MediaFile :=
  files.filter fun f =>
    f.media_category = MediaCategory.audio && f.clip_type = ClipType.interview

/-- The video-track clip items (lines 54-102): one `<track>` per interview
video angle, `start = file.sync_offset_frames || 0` (the field is always a
number, so `|| 0` only maps `0` to itself), `end = start + duration`,
`in = 0`, `out = duration`. -/
def videoTrackItems (files : List MediaFile) : List ClipItem :=
  (videoAngles files).map fun file =>
    let duration := getSafeDuration (FPS_NUM files) file
    let start := file.sync_offset_frames
    { id := file.filename ++ " 0", name := file.filename, duration := duration,
      start := start, endFrame := duration.map (start + ·), inPoint := 0,
      outPoint := duration }

/-- The camera-scratch audio clip items (lines 107-127): one per interview
video angle, same `start`/`end` as its video clip, id suffix `" 3"`. -/
def scratchTrackItems (files : List MediaFile) : List ClipItem :=
  (videoAngles files).map fun file =>
    let duration := getSafeDuration (FPS_NUM files) file
    let start := file.sync_offset_frames
    { id := file.filename ++ " 3", name := file.filename, duration := duration,
      start := start, endFrame := duration.map (start + ·), inPoint := 0,
      outPoint := duration }

/-- The master-audio clip items (lines 130-154): one per interview audio
asset, `start = 0`, `end = duration`. -/
def masterTrackItems (files : List MediaFile) : List ClipItem :=
  (masterAudio files).map fun file =>
    let duration := getSafeDuration (FPS_NUM files) file
    { id := file.filename ++ " 3", name := file.filename, duration := duration,
      start := 0, endFrame := duration, inPoint := 0,
      outPoint := duration }

/-- All audio clip items in document order: camera-scratch tracks first
(lines 107-127), then master audio tracks (lines 130-154). -/
def audioTrackItems (files : List MediaFile) : List ClipItem :=
  scratchTrackItems files ++ masterTrackItems files

end SyncExporter

/-! ## Alignment engine (`src/services/useWaveformSync.ts`) -/

/-- A decoded `AudioBuffer`: channel 0 samples (exact rationals in place of
IEEE floats) and the sample rate (an integer in every real decode). -/
structure AudioBuffer where
  channel0 : List ℚ
  sampleRate : Nat
  deriving DecidableEq

namespace WaveformSync

/-- The inner correlation window (lines 71-75): `for i in [0, 2000)`, adding
`master[i+offset] * slave[i]` only when both samples are truthy — an
out-of-range access (`undefined`) and a zero sample alike contribute
nothing, modelled by `getD _ 0` plus the non-zero guard. -/
def windowSum (masterData slaveData : List ℚ) (offset : Nat) : ℚ :=
  (List.range 2000).foldl
    (fun correlation i =>
      let m := masterData.getD (i + offset) 0
      let s := slaveData.getD i 0
      if m ≠ 0 ∧ s ≠ 0 then correlation + m * s else correlation)
    0

/-- `const scanWindow = Math.min(masterData.length, slaveData.length, sampleRate * 60)` (line 63). -/
def scanWindow (master slave : AudioBuffer) : Nat :=
  min master.channel0.length (min slave.channel0.length (master.sampleRate * 60))

/-- The candidate offsets visited by `for (let offset = 0; offset < scanWindow; offset += 50)`. -/
def candidateOffsets (w : Nat) : List Nat :=
  (List.range ((w + 49) / 50)).map (· * 50)

/-- The scan loop state (lines 64-80): `bestOffset` and `maxCorrelation`,
the latter initialised to `-Infinity` (`⊥`) and updated on strict
improvement. -/
def scanLoop (masterData slaveData : List ℚ) :
    List Nat → Nat × WithBot ℚ → Nat × WithBot ℚ
  | [], acc => acc
  | offset :: rest, (bestOffset, maxCorrelation) =>
    let correlation := windowSum masterData slaveData offset
    if maxCorrelation < (correlation : WithBot ℚ) then
      scanLoop masterData slaveData rest (offset, (correlation : WithBot ℚ))
    else
      scanLoop masterData slaveData rest (bestOffset, maxCorrelation)

/-- The `bestOffset` selected by `calculateOffset`'s scan. -/
def bestOffset (master slave : AudioBuffer) : Nat :=
  (scanLoop master.channel0 slave.channel0
    (candidateOffsets (scanWindow master slave)) (0, ⊥)).1

/-- `calculateOffset` (lines 55-83): `bestOffset / sampleRate` seconds. -/
def calculateOffset (master slave : AudioBuffer) : ℚ :=
  (bestOffset master slave : ℚ) / (master.sampleRate : ℚ)

/-- The slave loop of `syncFiles` (lines 102-110): a slave whose audio
decodes contributes `{drive_id, offset}`; an undecodable slave (`decode`
returns `none`, as `fetchAudioBuffer` does on any fetch/decode failure) is
skipped. -/
def syncSlaves (mb : AudioBuffer) (decode : MediaFile → Option AudioBuffer) :
    List MediaFile → List (String × ℚ)
  | [] => []
  | slave :: rest =>
    match decode slave with
    | some sb => (slave.drive_id, calculateOffset mb sb) :: syncSlaves mb decode rest
    | none => syncSlaves mb decode rest

/-- `syncFiles` (lines 88-116): an undecodable master aborts the batch with
an empty result list; otherwise each slave is compared to the master. -/
def syncFiles (decode : MediaFile → Option AudioBuffer)
    (masterFile : MediaFile) (slaveFiles : List MediaFile) : List (String × ℚ) :=
  match decode masterFile with
  | none => []
  | some mb => syncSlaves mb decode slaveFiles

/-- The per-file offset persistence of `handleRelationalSync` (App.tsx
lines 289-322): a registry entry is rewritten only when some result entry
carries its `drive_id` (the seconds→frames conversion is abstracted as
`frameOffset`); otherwise it is returned unchanged. -/
def applyOne (results : List (String × ℚ)) (frameOffset : MediaFile → ℚ → Int)
    (f : MediaFile) : MediaFile :=
  match results.find? (fun r => r.1 = f.drive_id) with
  | some r =>
    { f with sync_offset_frames := frameOffset f r.2, last_forensic_stage := some "sync" }
  | none => f

end WaveformSync

/-! ## Classification engine (`src/services/useForensicSurveyor.ts`).
The file holds two generations of the hook; the second (`europe-west1`,
lines 174-386) is the one the live `App.tsx` drives (it alone has the
`tech_specs` phase used by the Phase-0 button). -/

inductive HeavyMode
  | b_roll_desc
  | transcribe
  deriving Repr, DecidableEq

/-- The disjoint remote-call branches an asset can be routed to. -/
inductive AnalysisRoute
  | techPass
  | geminiDiscovery
  | shotTypeDetection
  | heavyPass (mode : HeavyMode)
  deriving Repr, DecidableEq

namespace ForensicSurveyor

/-- The `switch (phase)` of the live `analyzeFile` (lines 343-355): any
unlisted or absent phase falls through to `runGeminiDiscovery`. -/
def routePhase (phase : Option String) : AnalysisRoute :=
  match phase with
  | some "tech_specs" => AnalysisRoute.techPass
  | some "audio_discovery" => AnalysisRoute.geminiDiscovery
  | some "shot_type" => AnalysisRoute.geminiDiscovery
  | some "b_roll_desc" => AnalysisRoute.heavyPass HeavyMode.b_roll_desc
  | some "transcribe" => AnalysisRoute.heavyPass HeavyMode.transcribe
  | _ => AnalysisRoute.geminiDiscovery

/-- The `switch (phase)` of the first-generation `analyzeFile` in the same
file (lines 125-141), whose default branch inspects the asset:
audio assets and `interview` clips go to transcription, everything else to
the shot-type (category-discovery) pass. -/
def routePhaseV1 (file : MediaFile) (phase : Option String) : AnalysisRoute :=
  match phase with
  | some "shot_type" => AnalysisRoute.shotTypeDetection
  | some "b_roll_desc" => AnalysisRoute.heavyPass HeavyMode.b_roll_desc
  | some "transcribe" => AnalysisRoute.heavyPass HeavyMode.transcribe
  | _ =>
    if file.media_category = MediaCategory.audio ∨ file.clip_type = ClipType.interview then
      AnalysisRoute.heavyPass HeavyMode.transcribe
    else
      AnalysisRoute.shotTypeDetection

/-- The `Partial<MediaFile>` update an analysis call resolves with. -/
structure AnalysisUpdate where
  clip_type : Option ClipType := none
  analysis_content : Option String := none
  operation_id : Option String := none
  last_forensic_stage : Option String := none
  tech_metadata : Option TechnicalMetadata := none
  deriving Repr, DecidableEq

/-- `analyzeFile` (lines 335-362).  `run` is the outcome of the attempted
remote pipeline (GCS mirroring plus the routed phase handler); a thrown
error is `Except.error msg`.  The missing-token throw sits outside the
`try`, so it propagates; every error inside the `try` is converted to a
returned update with `operation_id = 'error'` and the message persisted as
analysis content. -/
def analyzeFile (hasToken : Bool) (run : Except String AnalysisUpdate) :
    Except String AnalysisUpdate :=
  if !hasToken then Except.error "Unauthorized"
  else
    match run with
    | Except.ok u => Except.ok u
    | Except.error msg =>
      Except.ok { analysis_content := some ("Error: " ++ msg), operation_id := some "error" }

/-- `handleCategorization` (App.tsx lines 238-258): one `analyzeFile` call
per asset still classified `unknown`, each wrapped in its own try/catch, so
every batch entry depends only on that asset's own pipeline outcome. -/
def categorizationBatch (hasToken : Bool)
    (run : MediaFile → Except String AnalysisUpdate)
    (registry : List MediaFile) : List (String × Except String AnalysisUpdate) :=
  (registry.filter fun f => f.clip_type = ClipType.unknown).map
    fun f => (f.drive_id, analyzeFile hasToken (run f))

/-- The state of a long-running remote operation as seen by one poll. -/
structure RemoteOperation where
  done : Bool
  speechContent : Option String
  labels : Option String
  deriving Repr, DecidableEq

/-- What `getAnalysisResult` resolves with when it does poll. -/
inductive PollResult
  | pending
  | doneWith (content : String)
  deriving Repr, DecidableEq

/-- `getAnalysisResult` (lines 367-383), paired with the number of remote
fetches issued: a missing token or a terminal handle
(`['light_complete', 'error', 'completed']`, line 368) returns `null`
before any fetch. -/
def getAnalysisResult (hasToken : Bool) (remote : String → RemoteOperation)
    (operationId : String) : Option PollResult × Nat :=
  if !hasToken || (["light_complete", "error", "completed"].contains operationId) then
    (none, 0)
  else
    let d := remote operationId
    if !d.done then (some PollResult.pending, 1)
    else
      match d.speechContent with
      | some c => (some (PollResult.doneWith c), 1)
      | none => (some (PollResult.doneWith ("Labels: " ++ d.labels.getD "None")), 1)

/-- The raw probe-service response consumed by `runTechPass`
(lines 249-261); absent JSON fields are `none`. -/
structure ProbeMetadata where
  start_tc : Option String := none
  codec_id : Option String := none
  width : Option Int := none
  height : Option Int := none
  frame_rate_fraction : Option String := none
  total_frames : Option String := none
  deriving Repr, DecidableEq

/-- JS `a || b` on an optional string: `undefined` and `""` are falsy. -/
def jsOrString (a : Option String) (b : String) : String :=
  match a with
  | some s => if s = "" then b else s
  | none => b

/-- The `tech_metadata` object built by `runTechPass` (lines 252-261) — the
same defaulting (`metadata.total_frames || '0'`) appears in
`handleTechSpecs` (App.tsx lines 220-227). -/
def runTechPassMetadata (m : ProbeMetadata) : TechnicalMetadata :=
  { start_tc := jsOrString m.start_tc "00:00:00:00"
    codec_id := jsOrString m.codec_id ""
    width := m.width.getD 0
    height := m.height.getD 0
    frame_rate_fraction := jsOrString m.frame_rate_fraction "25/1"
    total_frames := jsOrString m.total_frames "0" }

end ForensicSurveyor

/-- The filter both `handleCheckStatus` (App.tsx line 189) and the polling
interval (App.tsx lines 201-203) apply before any poll: the handle must be
a truthy string outside the terminal set. -/
def shouldPoll (f : MediaFile) : Bool :=
  match f.operation_id with
  | none => false
  | some id => id ≠ "" && !(["completed", "light_complete", "error"].contains id)

/-! ## Concrete assets used by the scenario claims -/

/-- A video interview asset probed at an NTSC fractional rate with an exact
frame count. -/
def ntscVideoFile : MediaFile :=
  { drive_id := "ntsc1", filename := "NTSC_A.mov", md5_checksum := "", size_bytes := 0,
    mime_type := "video/quicktime", sync_offset_frames := 0,
    media_category := MediaCategory.video, clip_type := ClipType.interview,
    tech_metadata := some
      { start_tc := "00:00:00:00", codec_id := "h264", width := 1920, height := 1080,
        frame_rate_fraction := "30000/1001", total_frames := "2545" } }

/-- A master audio asset with no probe metadata, only a millisecond
duration from discovery. -/
def demoMaster : MediaFile :=
  { drive_id := "m1", filename := "MASTER.wav", md5_checksum := "", size_bytes := 0,
    mime_type := "audio/wav", sync_offset_frames := 0, duration := some 8000,
    media_category := MediaCategory.audio, clip_type := ClipType.interview }

/-- Interview camera angle A: native rate `25/1`, 500 frames, synced at
offset 10. -/
def demoVideoA : MediaFile :=
  { drive_id := "v1", filename := "CAM_A.mp4", md5_checksum := "", size_bytes := 0,
    mime_type := "video/mp4", sync_offset_frames := 10,
    media_category := MediaCategory.video, clip_type := ClipType.interview,
    tech_metadata := some
      { start_tc := "01:00:00:00", codec_id := "h264", width := 1920, height := 1080,
        frame_rate_fraction := "25/1", total_frames := "500" } }

/-- Interview camera angle B: native rate `25/1`, 400 frames, synced at
offset 250. -/
def demoVideoB : MediaFile :=
  { drive_id := "v2", filename := "CAM_B.mp4", md5_checksum := "", size_bytes := 0,
    mime_type := "video/mp4", sync_offset_frames := 250,
    media_category := MediaCategory.video, clip_type := ClipType.interview,
    tech_metadata := some
      { start_tc := "01:00:00:00", codec_id := "h264", width := 1920, height := 1080,
        frame_rate_fraction := "25/1", total_frames := "400" } }

/-- The C7 scenario registry: one master audio asset plus two interview
video angles. -/
def demoRegistry : List MediaFile := [demoMaster, demoVideoA, demoVideoB]

/-- A second camera angle whose native rate disagrees with `demoVideoA`:
the C9 mismatch registry. -/
def mismatchVideoB : MediaFile :=
  { drive_id := "v2n", filename := "CAM_B_NTSC.mov", md5_checksum := "", size_bytes := 0,
    mime_type := "video/quicktime", sync_offset_frames := 20,
    media_category := MediaCategory.video, clip_type := ClipType.interview,
    tech_metadata := some
      { start_tc := "00:00:00:00", codec_id := "h264", width := 1920, height := 1080,
        frame_rate_fraction := "30000/1001", total_frames := "200" } }

/-- Two interview video assets expected to share one timebase, but probed
at inconsistent native rates (`25/1` vs `30000/1001`). -/
def mismatchRegistry : List MediaFile := [demoVideoA, mismatchVideoB]

/-- A video asset already classified as b-roll. -/
def brollVideoFile : MediaFile :=
  { drive_id := "b1", filename := "BROLL.mp4", md5_checksum := "", size_bytes := 0,
    mime_type := "video/mp4", sync_offset_frames := 0,
    media_category := MediaCategory.video, clip_type := ClipType.broll }

/-- An audio asset of known (interview) classification. -/
def knownAudioFile : MediaFile :=
  { drive_id := "a1", filename := "LAV.wav", md5_checksum := "", size_bytes := 0,
    mime_type := "audio/wav", sync_offset_frames := 0,
    media_category := MediaCategory.audio, clip_type := ClipType.interview }

/-- An asset whose tech pass stored the `"0"` placeholder for
`total_frames` while discovery recorded a positive millisecond duration. -/
def zeroFramesFile : MediaFile :=
  { drive_id := "z1", filename := "ZERO.mp4", md5_checksum := "", size_bytes := 0,
    mime_type := "video/mp4", sync_offset_frames := 0, duration := some 5000,
    media_category := MediaCategory.video, clip_type := ClipType.interview,
    tech_metadata := some
      { start_tc := "00:00:00:00", codec_id := "h264", width := 1920, height := 1080,
        frame_rate_fraction := "25/1", total_frames := "0" } }

/-- A three-sample master buffer for the alignment scenario. -/
def demoMasterBuffer : AudioBuffer :=
  { channel0 := [1, 0, 0], sampleRate := 48000 }

/-- A one-sample slave buffer for the alignment scenario. -/
def demoSlaveBuffer : AudioBuffer :=
  { channel0 := [1], sampleRate := 48000 }

/-- A slave video angle whose audio proxy decodes. -/
def slaveGood : MediaFile :=
  { drive_id := "sg", filename := "GOOD.mp4", md5_checksum := "", size_bytes := 0,
    mime_type := "video/mp4", sync_offset_frames := 7,
    media_category := MediaCategory.video, clip_type := ClipType.interview }

/-- A slave video angle whose audio proxy does not decode. -/
def slaveBad : MediaFile :=
  { drive_id := "sb", filename := "BAD.mp4", md5_checksum := "", size_bytes := 0,
    mime_type := "video/mp4", sync_offset_frames := 9,
    media_category := MediaCategory.video, clip_type := ClipType.interview }

/-- A decode oracle for the alignment scenario: every asset decodes to the
one-sample buffer except `slaveBad`. -/
def demoDecode : MediaFile → Option AudioBuffer :=
  fun f => if f.drive_id = "sb" then none else some demoSlaveBuffer

/-- Three unclassified assets forming a categorization batch. -/
def unknownA : MediaFile :=
  { drive_id := "u1", filename := "U1.mp4", md5_checksum := "", size_bytes := 0,
    mime_type := "video/mp4", sync_offset_frames := 0,
    media_category := MediaCategory.video, clip_type := ClipType.unknown }

def unknownB : MediaFile :=
  { drive_id := "u2", filename := "U2.mp4", md5_checksum := "", size_bytes := 0,
    mime_type := "video/mp4", sync_offset_frames := 0,
    media_category := MediaCategory.video, clip_type := ClipType.unknown }

def unknownC : MediaFile :=
  { drive_id := "u3", filename := "U3.mp4", md5_checksum := "", size_bytes := 0,
    mime_type := "video/mp4", sync_offset_frames := 0,
    media_category := MediaCategory.video, clip_type := ClipType.unknown }

/-- The successful discovery update the remote pipeline resolves with. -/
def lightUpdate : ForensicSurveyor.AnalysisUpdate :=
  { clip_type := some ClipType.interview,
    analysis_content := some "Discovery: Interview",
    operation_id := some "light_complete",
    last_forensic_stage := some "light" }

/-- A pipeline oracle where only asset `u2`'s remote call throws. -/
def demoRun : MediaFile → Except String ForensicSurveyor.AnalysisUpdate :=
  fun f => if f.drive_id = "u2" then Except.error "boom" else Except.ok lightUpdate

/-- An asset whose operation handle is the terminal `'error'` marker. -/
def erroredFile : MediaFile :=
  { drive_id := "e1", filename := "E1.mp4", md5_checksum := "", size_bytes := 0,
    mime_type := "video/mp4", sync_offset_frames := 0,
    media_category := MediaCategory.video, clip_type := ClipType.interview,
    operation_id := some "error" }

/-! # Theorems -/

/-! ## Evaluation lemmas for concrete numeric strings -/

theorem jsParseInt_empty : jsParseInt "" = none := by decide

theorem parseFPS_eval_30000_1001 : parseFPSValue "30000/1001" = some (30000 / 1001 : ℚ) := by
  show jsDiv (Option.map NumParts.val (jsNumberCore "30000".data))
      (Option.map NumParts.val (jsNumberCore "1001".data)) = some (30000 / 1001 : ℚ)
  rw [(by decide : jsNumberCore "30000".data = some ⟨false, 30000, 0, 0⟩)]
  rw [(by decide : jsNumberCore "1001".data = some ⟨false, 1001, 0, 0⟩)]
  norm_num [NumParts.val, jsDiv]

theorem parseFPS_eval_25_1 : parseFPSValue "25/1" = some 25 := by
  show jsDiv (Option.map NumParts.val (jsNumberCore "25".data))
      (Option.map NumParts.val (jsNumberCore "1".data)) = some 25
  rw [(by decide : jsNumberCore "25".data = some ⟨false, 25, 0, 0⟩)]
  rw [(by decide : jsNumberCore "1".data = some ⟨false, 1, 0, 0⟩)]
  norm_num [NumParts.val, jsDiv]

theorem jsParseFloat_eval_25_1 : jsParseFloat "25/1" = some 25 := by
  rw [jsParseFloat, (by decide : jsParseFloatCore "25/1".data = some ⟨false, 25, 0, 0⟩)]
  norm_num [NumParts.val]

theorem den_30000_1001 : ((30000 : ℚ) / 1001).den = 1001 := by
  norm_num [Rat.den]

/-! ## C1 -/

/-- Fallback half of the multicam `getSafeDuration`: with no positive
`total_frames`, methods 2 and 3 apply. -/
theorem getSafeDuration_no_frames (TL : Int) (file : MediaFile)
    (h : MulticamExporter.positiveTotalFrames file = false) :
    MulticamExporter.getSafeDuration TL file =
      (match file.duration with
       | some d => if d > 0 then some (round ((d : ℚ) / 1000 * (TL : ℚ))) else some 250
       | none => some 250) := by
  rcases htm : file.tech_metadata with _ | tm
  · simp only [MulticamExporter.getSafeDuration, htm]
  · simp only [MulticamExporter.positiveTotalFrames, htm] at h
    simp only [MulticamExporter.getSafeDuration, htm]
    by_cases he : tm.total_frames = ""
    · rw [if_neg (not_not_intro he)]
    · rw [if_pos he]
      rcases hp : jsParseInt tm.total_frames with _ | n
      · rfl
      · simp only [hp] at h ⊢
        simp only [he, ne_eq, not_false_iff, decide_True, Bool.true_and] at h
        have hn : n ≤ 0 := by simpa using h
        rw [if_neg (by omega)]

/-- C1: in the multicam exporter's `getSafeDuration`, a present
`total_frames` parsing to a positive integer yields the native-to-project
conversion `round(total_frames / native_fps × project_fps)`; only without
a positive `total_frames` is a positive millisecond duration used via
`round(duration_ms / 1000 × project_fps)`; otherwise the fixed 250-frame
minimum is returned. -/
theorem C1_duration_resolution (TL : Int) (file : MediaFile) :
    (∀ tm n q, file.tech_metadata = some tm →
        jsParseInt tm.total_frames = some n → 0 < n →
        MulticamExporter.nativeFPSOf tm = some q → q ≠ 0 →
        MulticamExporter.getSafeDuration TL file =
          some (round ((n : ℚ) / q * (TL : ℚ)))) ∧
    (∀ d : Int, MulticamExporter.positiveTotalFrames file = false →
        file.duration = some d → 0 < d →
        MulticamExporter.getSafeDuration TL file =
          some (round ((d : ℚ) / 1000 * (TL : ℚ)))) ∧
    (MulticamExporter.positiveTotalFrames file = false →
        (∀ d : Int, file.duration = some d → d ≤ 0) →
        MulticamExporter.getSafeDuration TL file = some 250) := by
  refine ⟨?_, ?_, ?_⟩
  · intro tm n q htm hp hn hq hq0
    have he : tm.total_frames ≠ "" := by
      intro h
      rw [h, jsParseInt_empty] at hp
      exact Option.noConfusion hp
    simp only [MulticamExporter.getSafeDuration, htm]
    rw [if_pos he, hp]
    simp only [hq, if_pos hn, if_neg hq0]
  · intro d hnf hd hdpos
    rw [getSafeDuration_no_frames TL file hnf]
    simp only [hd]
    rw [if_pos hdpos]
  · intro hnf hdur
    rw [getSafeDuration_no_frames TL file hnf]
    rcases hd : file.duration with _ | d
    · rfl
    · have hn : d ≤ 0 := hdur d hd
      simp only []
      rw [if_neg (by omega)]

/-- C1 witness: 2545 frames at native `30000/1001` on a 30 fps timeline is
`round(2545 × 1001/30000 × 30) = 2548` frames. -/
theorem C1_witness : MulticamExporter.getSafeDuration 30 ntscVideoFile = some 2548 := by
  have h := (C1_duration_resolution 30 ntscVideoFile).1
    { start_tc := "00:00:00:00", codec_id := "h264", width := 1920, height := 1080,
      frame_rate_fraction := "30000/1001", total_frames := "2545" }
    2545 (30000 / 1001 : ℚ) rfl (by decide) (by norm_num)
    (by
      show parseFPSValue "30000/1001" = some (30000 / 1001 : ℚ)
      exact parseFPS_eval_30000_1001)
    (by norm_num)
  rw [h]
  norm_num [round_eq]

/-! ## C2 -/

/-- C2: the multicam exporter's project timebase comes from the first video
asset carrying a `frame_rate_fraction`: the parsed rational rate is rounded
to the nearest integer, the NTSC flag is set exactly when that rational is
non-integral, and the default with no such asset is timebase 25 with NTSC
false. -/
theorem C2_timebase_selection (files : List MediaFile) :
    (MulticamExporter.firstVideo files = none →
        MulticamExporter.timebaseOf files = (some 25, false)) ∧
    (∀ f q, MulticamExporter.firstVideo files = some f →
        parseFPSValue ((f.tech_metadata.map TechnicalMetadata.frame_rate_fraction).getD "")
          = some q →
        MulticamExporter.timebaseOf files = (some (round q), decide (q.den ≠ 1)) ∧
          ((MulticamExporter.timebaseOf files).2 = true ↔ ∀ z : ℤ, (z : ℚ) ≠ q)) := by
  constructor
  · intro h
    simp only [MulticamExporter.timebaseOf, h]
  · intro f q hf hq
    have hbase : MulticamExporter.timebaseOf files = (some (round q), decide (q.den ≠ 1)) := by
      simp only [MulticamExporter.timebaseOf, hf, hq]
    refine ⟨hbase, ?_⟩
    rw [hbase]
    simp only [decide_eq_true_eq]
    constructor
    · intro hden z hz
      exact hden (hz ▸ Rat.den_intCast z)
    · intro hz hden
      exact hz q.num (by exact_mod_cast (Rat.den_eq_one_iff q).mp hden)

/-- C2 witness: a registry whose first (and only) rate-carrying video asset
is probed at `"30000/1001"` gets timebase 30 with the NTSC flag set. -/
theorem C2_witness :
    MulticamExporter.timebaseOf [knownAudioFile, ntscVideoFile] = (some 30, true) := by
  have h := ((C2_timebase_selection [knownAudioFile, ntscVideoFile]).2
    ntscVideoFile (30000 / 1001 : ℚ) (by decide)
    (by
      show parseFPSValue "30000/1001" = some (30000 / 1001 : ℚ)
      exact parseFPS_eval_30000_1001)).1
  rw [h]
  have h30 : round ((30000 : ℚ) / 1001) = 30 := by norm_num [round_eq]
  have hden : decide (((30000 : ℚ) / 1001).den ≠ 1) = true := by simp [den_30000_1001]
  rw [h30, hden]

/-! ## C7 -/

/-- C7: for a registry of one master audio asset (offset 0) and two
interview video angles (offsets 10 and 250 frames, native rate `25/1`,
project rate 25), `generateXML` emits exactly 2 video clip items and
3 audio clip items (2 camera-scratch + 1 master); every interview clip and
its camera-scratch twin start at the stored sync offset and end at
`start + duration`, and the master audio clip starts at frame 0. -/
theorem C7_track_construction :
    (SyncExporter.videoTrackItems demoRegistry).length = 2 ∧
    (SyncExporter.audioTrackItems demoRegistry).length = 3 ∧
    (SyncExporter.videoTrackItems demoRegistry).map
        (fun c => (c.start, c.duration, c.endFrame)) =
      [(10, some 500, some 510), (250, some 400, some 650)] ∧
    (SyncExporter.scratchTrackItems demoRegistry).map
        (fun c => (c.start, c.duration, c.endFrame)) =
      [(10, some 500, some 510), (250, some 400, some 650)] ∧
    (SyncExporter.masterTrackItems demoRegistry).map
        (fun c => (c.start, c.duration, c.endFrame)) =
      [(0, some 200, some 200)] := by
  have hFPS : SyncExporter.FPS_NUM demoRegistry = some 25 := by
    rw [SyncExporter.FPS_NUM,
      (by decide : SyncExporter.rawFPS demoRegistry = "25/1"), jsParseFloat_eval_25_1]
  have hdm : SyncExporter.getSafeDuration (some 25) demoMaster = some 200 := by
    simp only [SyncExporter.getSafeDuration, demoMaster]
    norm_num [round_eq]
  have hmaster :
      (SyncExporter.masterTrackItems demoRegistry).map
        (fun c => (c.start, c.duration, c.endFrame)) = [(0, some 200, some 200)] := by
    simp only [SyncExporter.masterTrackItems,
      (by decide : SyncExporter.masterAudio demoRegistry = [demoMaster]),
      hFPS, hdm, List.map_cons, List.map_nil]
  refine ⟨by decide, ?_, by decide, by decide, hmaster⟩
  simp only [SyncExporter.audioTrackItems, List.length_append]
  have h2 : (SyncExporter.scratchTrackItems demoRegistry).length = 2 := by decide
  have h1 : (SyncExporter.masterTrackItems demoRegistry).length = 1 := by
    simp only [SyncExporter.masterTrackItems,
      (by decide : SyncExporter.masterAudio demoRegistry = [demoMaster]), List.length_map,
      List.length_cons, List.length_nil]
  rw [h2, h1]

/-! ## C9 -/

/-- C9: [code bug] with two interview video assets probed at inconsistent
native rates (`25/1` vs `30000/1001`), the live `generateXML` surfaces
nothing: it silently coerces the sequence to the first asset's rate
(timebase 25, NTSC false) and still emits clip items for both assets.  No
code path in either exporter produces the "Framerate Mismatch" error that
`handleExportXML` (App.tsx lines 340-349) documents itself as catching. -/
theorem C9_mismatch_silently_coerced :
    SyncExporter.TIMEBASE mismatchRegistry = some 25 ∧
    SyncExporter.IS_NTSC mismatchRegistry = false ∧
    (SyncExporter.videoTrackItems mismatchRegistry).length = 2 := by
  have hFPS : SyncExporter.FPS_NUM mismatchRegistry = some 25 := by
    rw [SyncExporter.FPS_NUM,
      (by decide : SyncExporter.rawFPS mismatchRegistry = "25/1"), jsParseFloat_eval_25_1]
  refine ⟨?_, ?_, by decide⟩
  · rw [SyncExporter.TIMEBASE, hFPS]
    have : round (25 : ℚ) = 25 := by norm_num [round_eq]
    simp [this]
  · rw [SyncExporter.IS_NTSC, hFPS]
    norm_num

/-! ## C10 -/

/-- C10: in the live exporter's `getSafeDuration`, an asset whose
`total_frames` is the truthy string `"0"` gets clip duration 0 even when a
positive millisecond duration is stored — the presence check passes, so
neither the millisecond conversion nor the 100-frame minimum is reached —
and the tech pass itself writes this `"0"` placeholder whenever the probe
omits `total_frames`. -/
theorem C10_zero_frames_placeholder (FPS : Option ℚ) (file : MediaFile) :
    (∀ tm d, file.tech_metadata = some tm → tm.total_frames = "0" →
        file.duration = some d → 0 < d →
        SyncExporter.getSafeDuration FPS file = some 0) ∧
    (∀ m : ForensicSurveyor.ProbeMetadata,
        m.total_frames = none ∨ m.total_frames = some "" →
        (ForensicSurveyor.runTechPassMetadata m).total_frames = "0") := by
  constructor
  · intro tm d htm h0 _ _
    simp only [SyncExporter.getSafeDuration, htm]
    rw [if_pos (by rw [h0]; decide), h0]
    decide
  · intro m hm
    rcases hm with hm | hm <;>
      simp [ForensicSurveyor.runTechPassMetadata, ForensicSurveyor.jsOrString, hm]

/-- C10 witness: the concrete asset with `total_frames = "0"` and a 5000 ms
duration exports with duration 0, and a probe response lacking
`total_frames` is stored with the `"0"` placeholder. -/
theorem C10_witness :
    SyncExporter.getSafeDuration (some 25) zeroFramesFile = some 0 ∧
    (ForensicSurveyor.runTechPassMetadata
      { start_tc := some "01:00:00:00" }).total_frames = "0" := by
  constructor
  · exact (C10_zero_frames_placeholder (some 25) zeroFramesFile).1
      { start_tc := "00:00:00:00", codec_id := "h264", width := 1920, height := 1080,
        frame_rate_fraction := "25/1", total_frames := "0" }
      5000 rfl rfl rfl (by norm_num)
  · exact (C10_zero_frames_placeholder (some 25) zeroFramesFile).2
      { start_tc := some "01:00:00:00" } (Or.inl rfl)

/-! ## C3 -/

/-- The scan loop never decreases the running maximum. -/
theorem scanLoop_snd_le (md sd : List ℚ) (l : List Nat) :
    ∀ b m, m ≤ (WaveformSync.scanLoop md sd l (b, m)).2 := by
  induction l with
  | nil => intro b m; exact le_rfl
  | cons o rest ih =>
    intro b m
    simp only [WaveformSync.scanLoop]
    by_cases h : m < ((WaveformSync.windowSum md sd o : ℚ) : WithBot ℚ)
    · rw [if_pos h]
      exact le_trans h.le (ih o _)
    · rw [if_neg h]
      exact ih b m

/-- The scan loop either keeps its initial state or returns a visited
offset whose correlation is the running maximum. -/
theorem scanLoop_mem (md sd : List ℚ) (l : List Nat) :
    ∀ b m, WaveformSync.scanLoop md sd l (b, m) = (b, m) ∨
      ((WaveformSync.scanLoop md sd l (b, m)).1 ∈ l ∧
        (WaveformSync.scanLoop md sd l (b, m)).2 =
          ((WaveformSync.windowSum md sd (WaveformSync.scanLoop md sd l (b, m)).1 : ℚ) :
            WithBot ℚ)) := by
  induction l with
  | nil => intro b m; exact Or.inl rfl
  | cons o rest ih =>
    intro b m
    simp only [WaveformSync.scanLoop]
    by_cases h : m < ((WaveformSync.windowSum md sd o : ℚ) : WithBot ℚ)
    · rw [if_pos h]
      rcases ih o ((WaveformSync.windowSum md sd o : ℚ) : WithBot ℚ) with h1 | h1
      · right
        rw [h1]
        exact ⟨List.mem_cons_self _ _, rfl⟩
      · exact Or.inr ⟨List.mem_cons_of_mem o h1.1, h1.2⟩
    · rw [if_neg h]
      rcases ih b m with h1 | h1
      · exact Or.inl h1
      · exact Or.inr ⟨List.mem_cons_of_mem o h1.1, h1.2⟩

/-- Every visited offset's correlation is bounded by the loop's final
maximum. -/
theorem scanLoop_max (md sd : List ℚ) (l : List Nat) :
    ∀ b m o, o ∈ l →
      ((WaveformSync.windowSum md sd o : ℚ) : WithBot ℚ) ≤
        (WaveformSync.scanLoop md sd l (b, m)).2 := by
  induction l with
  | nil => intro b m o h; cases h
  | cons o' rest ih =>
    intro b m o h
    simp only [WaveformSync.scanLoop]
    rcases List.mem_cons.mp h with rfl | h
    · by_cases hlt : m < ((WaveformSync.windowSum md sd o : ℚ) : WithBot ℚ)
      · rw [if_pos hlt]
        exact scanLoop_snd_le md sd rest o _
      · rw [if_neg hlt]
        exact le_trans (not_lt.mp hlt) (scanLoop_snd_le md sd rest b m)
    · by_cases hlt : m < ((WaveformSync.windowSum md sd o' : ℚ) : WithBot ℚ)
      · rw [if_pos hlt]
        exact ih o' _ o h
      · rw [if_neg hlt]
        exact ih b m o h

/-- C3: `calculateOffset` returns the non-negative quantity
`bestOffset / sampleRate` where the candidate set is exactly the stride-50
grid of `[0, min(masterLength, slaveLength, 60·sampleRate))` and
`bestOffset` is a candidate maximising the leading-window correlation sum
(out-of-range and zero samples contributing nothing, by the definition of
`windowSum`). -/
theorem C3_cross_correlation (master slave : AudioBuffer)
    (hw : 0 < WaveformSync.scanWindow master slave) :
    WaveformSync.calculateOffset master slave =
      (WaveformSync.bestOffset master slave : ℚ) / (master.sampleRate : ℚ) ∧
    0 ≤ WaveformSync.calculateOffset master slave ∧
    (∀ o : Nat,
      o ∈ WaveformSync.candidateOffsets (WaveformSync.scanWindow master slave) ↔
        o % 50 = 0 ∧ o < WaveformSync.scanWindow master slave) ∧
    WaveformSync.bestOffset master slave ∈
      WaveformSync.candidateOffsets (WaveformSync.scanWindow master slave) ∧
    (∀ o ∈ WaveformSync.candidateOffsets (WaveformSync.scanWindow master slave),
      WaveformSync.windowSum master.channel0 slave.channel0 o ≤
        WaveformSync.windowSum master.channel0 slave.channel0
          (WaveformSync.bestOffset master slave)) := by
  have hchar : ∀ o : Nat,
      o ∈ WaveformSync.candidateOffsets (WaveformSync.scanWindow master slave) ↔
        o % 50 = 0 ∧ o < WaveformSync.scanWindow master slave := by
    intro o
    simp only [WaveformSync.candidateOffsets, List.mem_map, List.mem_range]
    constructor
    · rintro ⟨k, hk, rfl⟩
      omega
    · rintro ⟨h1, h2⟩
      exact ⟨o / 50, by omega, by omega⟩
  have hzero : (0 : Nat) ∈
      WaveformSync.candidateOffsets (WaveformSync.scanWindow master slave) :=
    (hchar 0).mpr ⟨by omega, hw⟩
  set md := master.channel0
  set sd := slave.channel0
  set l := WaveformSync.candidateOffsets (WaveformSync.scanWindow master slave) with hl
  have hrun := scanLoop_mem md sd l 0 ⊥
  have hmax := scanLoop_max md sd l 0 ⊥
  have hbest : WaveformSync.bestOffset master slave =
      (WaveformSync.scanLoop md sd l (0, ⊥)).1 := rfl
  rcases hrun with hfix | ⟨hmem, hcorr⟩
  · exfalso
    have h0 := hmax 0 hzero
    rw [hfix] at h0
    exact WithBot.not_coe_le_bot _ h0
  · refine ⟨rfl, ?_, hchar, hbest ▸ hmem, ?_⟩
    · exact div_nonneg (Nat.cast_nonneg _) (Nat.cast_nonneg _)
    · intro o ho
      have h := hmax o ho
      rw [hcorr] at h
      exact_mod_cast (hbest ▸ h)

/-- C3 witness: a three-sample master against a one-sample slave has scan
window 1, the single candidate 0, and offset 0 seconds. -/
theorem C3_witness :
    WaveformSync.calculateOffset demoMasterBuffer demoSlaveBuffer =
      (WaveformSync.bestOffset demoMasterBuffer demoSlaveBuffer : ℚ) / 48000 ∧
    0 ≤ WaveformSync.calculateOffset demoMasterBuffer demoSlaveBuffer ∧
    WaveformSync.bestOffset demoMasterBuffer demoSlaveBuffer ∈
      WaveformSync.candidateOffsets
        (WaveformSync.scanWindow demoMasterBuffer demoSlaveBuffer) := by
  have h := C3_cross_correlation demoMasterBuffer demoSlaveBuffer (by decide)
  exact ⟨h.1, h.2.1, h.2.2.2.1⟩

/-! ## C4 -/

/-- The slave loop is the filter-map of per-slave decoding. -/
theorem syncSlaves_eq_filterMap (mb : AudioBuffer)
    (decode : MediaFile → Option AudioBuffer) (l : List MediaFile) :
    WaveformSync.syncSlaves mb decode l =
      l.filterMap (fun s => (decode s).map
        (fun sb => (s.drive_id, WaveformSync.calculateOffset mb sb))) := by
  induction l with
  | nil => rfl
  | cons s rest ih =>
    simp only [WaveformSync.syncSlaves, List.filterMap_cons]
    rcases h : decode s with _ | sb
    · simpa [h] using ih
    · simpa [h] using ih

/-- C4: an undecodable slave produces no result entry (so its stored offset
is never rewritten by the result-application loop) while every decodable
slave still is processed; an undecodable master aborts the whole batch with
an empty result set. -/
theorem C4_decode_failure_isolation (decode : MediaFile → Option AudioBuffer)
    (masterFile : MediaFile) (slaveFiles : List MediaFile) :
    (decode masterFile = none →
      WaveformSync.syncFiles decode masterFile slaveFiles = []) ∧
    (∀ mb, decode masterFile = some mb →
      WaveformSync.syncFiles decode masterFile slaveFiles =
        slaveFiles.filterMap (fun s => (decode s).map
          (fun sb => (s.drive_id, WaveformSync.calculateOffset mb sb)))) ∧
    (∀ mb, decode masterFile = some mb →
      ∀ s ∈ slaveFiles, decode s = none →
        (∀ s' ∈ slaveFiles, s'.drive_id = s.drive_id → decode s' = none) →
        ∀ f : MediaFile, f.drive_id = s.drive_id →
          ∀ off : MediaFile → ℚ → Int,
            WaveformSync.applyOne
              (WaveformSync.syncFiles decode masterFile slaveFiles) off f = f) := by
  refine ⟨?_, ?_, ?_⟩
  · intro h
    simp [WaveformSync.syncFiles, h]
  · intro mb h
    simp [WaveformSync.syncFiles, h, syncSlaves_eq_filterMap]
  · intro mb hmb s hs hsd huniq f hf off
    have hres : WaveformSync.syncFiles decode masterFile slaveFiles =
        slaveFiles.filterMap (fun s => (decode s).map
          (fun sb => (s.drive_id, WaveformSync.calculateOffset mb sb))) := by
      simp [WaveformSync.syncFiles, hmb, syncSlaves_eq_filterMap]
    have hnone : ∀ r ∈ WaveformSync.syncFiles decode masterFile slaveFiles,
        ¬ (r.1 = f.drive_id) := by
      intro r hr hid
      rw [hres] at hr
      rcases List.mem_filterMap.mp hr with ⟨s', hs', hmap⟩
      rcases hd : decode s' with _ | sb
      · rw [hd] at hmap
        exact Option.noConfusion hmap
      · rw [hd] at hmap
        have hr1 : r.1 = s'.drive_id := by
          have := Option.some_injective _ hmap
          rw [← this]
        have : decode s' = none := huniq s' hs' (by rw [← hr1, hid, hf])
        rw [hd] at this
        exact Option.noConfusion this
    have hfind : (WaveformSync.syncFiles decode masterFile slaveFiles).find?
        (fun r => r.1 = f.drive_id) = none := by
      rw [List.find?_eq_none]
      intro r hr
      simpa using hnone r hr
    simp [WaveformSync.applyOne, hfind]

/-- C4 witness: with a decodable master, `slaveGood` yields a result entry
and `slaveBad` none; with `slaveBad` itself as the undecodable master the
batch is empty; applying the results leaves `slaveBad` untouched. -/
theorem C4_witness :
    WaveformSync.syncFiles demoDecode slaveBad [slaveGood] = [] ∧
    WaveformSync.syncFiles demoDecode demoMaster [slaveGood, slaveBad] =
      [(slaveGood.drive_id,
        WaveformSync.calculateOffset demoSlaveBuffer demoSlaveBuffer)] ∧
    WaveformSync.applyOne
      (WaveformSync.syncFiles demoDecode demoMaster [slaveGood, slaveBad])
      (fun _ _ => 0) slaveBad = slaveBad := by
  have h := C4_decode_failure_isolation demoDecode demoMaster [slaveGood, slaveBad]
  refine ⟨?_, ?_, ?_⟩
  · exact (C4_decode_failure_isolation demoDecode slaveBad [slaveGood]).1 rfl
  · rw [h.2.1 demoSlaveBuffer rfl]
    rfl
  · refine h.2.2 demoSlaveBuffer rfl slaveBad (by simp) rfl ?_ slaveBad rfl (fun _ _ => 0)
    intro s' hs' hid
    rcases List.mem_cons.mp hs' with rfl | hs'
    · exact absurd hid (by decide)
    · rcases List.mem_cons.mp hs' with rfl | hs'
      · rfl
      · cases hs'

/-! ## C5 -/

/-- C5: with a token present, `analyzeFile` converts any thrown pipeline
error into a returned update carrying `operation_id = 'error'` and the
error text as analysis content — it never rethrows — and in a
categorization batch every `unknown` asset's entry is exactly the outcome
of its own pipeline run, so one asset's failure leaves the others'
entries intact. -/
theorem C5_remote_error_containment (run : MediaFile → Except String ForensicSurveyor.AnalysisUpdate)
    (registry : List MediaFile) :
    (∀ msg, ForensicSurveyor.analyzeFile true (Except.error msg) =
      Except.ok { analysis_content := some ("Error: " ++ msg),
                  operation_id := some "error" }) ∧
    (∀ r, ∃ u, ForensicSurveyor.analyzeFile true r = Except.ok u) ∧
    (ForensicSurveyor.categorizationBatch true run registry =
      (registry.filter fun f => f.clip_type = ClipType.unknown).map
        (fun f => (f.drive_id, ForensicSurveyor.analyzeFile true (run f)))) ∧
    (∀ f ∈ registry, f.clip_type = ClipType.unknown → ∀ msg, run f = Except.error msg →
      (f.drive_id, Except.ok
          ({ analysis_content := some ("Error: " ++ msg), operation_id := some "error" }
            : ForensicSurveyor.AnalysisUpdate)) ∈
        ForensicSurveyor.categorizationBatch true run registry) := by
  refine ⟨fun msg => rfl, ?_, rfl, ?_⟩
  · intro r
    rcases r with msg | u
    · exact ⟨_, rfl⟩
    · exact ⟨u, rfl⟩
  · intro f hf hct msg hrun
    have hmem : f ∈ registry.filter fun f => f.clip_type = ClipType.unknown :=
      List.mem_filter.mpr ⟨hf, by simp [hct]⟩
    have : (f.drive_id, ForensicSurveyor.analyzeFile true (run f)) ∈
        ForensicSurveyor.categorizationBatch true run registry :=
      List.mem_map_of_mem _ hmem
    rwa [hrun] at this

/-- C5 witness: in the three-asset batch where only `u2`'s remote call
throws `"boom"`, assets 1 and 3 reach the discovery update and asset 2's
entry is the persisted error update. -/
theorem C5_witness :
    (unknownA.drive_id, Except.ok lightUpdate) ∈
      ForensicSurveyor.categorizationBatch true demoRun [unknownA, unknownB, unknownC] ∧
    (unknownB.drive_id, Except.ok
        ({ analysis_content := some "Error: boom", operation_id := some "error" }
          : ForensicSurveyor.AnalysisUpdate)) ∈
      ForensicSurveyor.categorizationBatch true demoRun [unknownA, unknownB, unknownC] ∧
    (unknownC.drive_id, Except.ok lightUpdate) ∈
      ForensicSurveyor.categorizationBatch true demoRun [unknownA, unknownB, unknownC] := by
  have h := C5_remote_error_containment demoRun [unknownA, unknownB, unknownC]
  refine ⟨?_, ?_, ?_⟩
  · rw [h.2.2.1]
    simp [demoRun, unknownA, unknownB, unknownC, ForensicSurveyor.analyzeFile]
  · exact h.2.2.2 unknownB (by simp) rfl "boom" rfl
  · rw [h.2.2.1]
    simp [demoRun, unknownA, unknownB, unknownC, ForensicSurveyor.analyzeFile]

/-! ## C6 -/

/-- C6: polling any terminal handle (`light_complete`, `completed`,
`error`) is a no-op returning null with no remote fetch, and the App-side
filter refuses to poll an asset holding such a handle. -/
theorem C6_terminal_handles_never_polled (hasToken : Bool)
    (remote : String → ForensicSurveyor.RemoteOperation) (id : String)
    (h : id = "light_complete" ∨ id = "completed" ∨ id = "error") :
    ForensicSurveyor.getAnalysisResult hasToken remote id = (none, 0) ∧
    (∀ f : MediaFile, f.operation_id = some id → shouldPoll f = false) := by
  constructor
  · rcases h with rfl | rfl | rfl <;>
      simp [ForensicSurveyor.getAnalysisResult]
  · intro f hop
    rcases h with rfl | rfl | rfl <;>
      simp [shouldPoll, hop]

/-- C6 witness: the `'error'` handle is not polled even with a token and a
completed remote operation waiting, and `erroredFile` is filtered out. -/
theorem C6_witness :
    ForensicSurveyor.getAnalysisResult true
      (fun _ => { done := true, speechContent := some "hello", labels := none }) "error"
      = (none, 0) ∧
    shouldPoll erroredFile = false := by
  have h := C6_terminal_handles_never_polled true
    (fun _ => { done := true, speechContent := some "hello", labels := none })
    "error" (Or.inr (Or.inr rfl))
  exact ⟨h.1, h.2 erroredFile rfl⟩

/-! ## C8 -/

/-- C8 counterexample: a b-roll video asset dispatched with no explicit
phase is routed to the shot-type/category-discovery pass by the
default branch of the first-generation `analyzeFile` — not to the
deep-content-mapping (`b_roll_desc`) job the claim states — and the live
`analyzeFile`'s default branch likewise routes everything (b-roll
included) to category discovery. -/
theorem C8_counterexample :
    ForensicSurveyor.routePhaseV1 brollVideoFile none ≠
      AnalysisRoute.heavyPass HeavyMode.b_roll_desc ∧
    ForensicSurveyor.routePhaseV1 brollVideoFile none =
      AnalysisRoute.shotTypeDetection ∧
    ForensicSurveyor.routePhase none = AnalysisRoute.geminiDiscovery := by
  refine ⟨by decide, by decide, rfl⟩

/-- C8 (amended): the first-generation default dispatch sends any audio
asset or `interview` clip to transcription, and every other asset —
unknown-category video and `b-roll` video alike — to the shot-type
(category-discovery) pass; the deep-content-mapping job is reached only
through an explicit phase. -/
theorem C8_default_dispatch (f : MediaFile) :
    (f.media_category = MediaCategory.audio ∨ f.clip_type = ClipType.interview →
      ForensicSurveyor.routePhaseV1 f none =
        AnalysisRoute.heavyPass HeavyMode.transcribe) ∧
    (f.media_category = MediaCategory.video → f.clip_type ≠ ClipType.interview →
      ForensicSurveyor.routePhaseV1 f none = AnalysisRoute.shotTypeDetection) := by
  constructor
  · intro h
    show (if f.media_category = MediaCategory.audio ∨ f.clip_type = ClipType.interview
        then AnalysisRoute.heavyPass HeavyMode.transcribe
        else AnalysisRoute.shotTypeDetection) =
      AnalysisRoute.heavyPass HeavyMode.transcribe
    rw [if_pos h]
  · intro hv hi
    show (if f.media_category = MediaCategory.audio ∨ f.clip_type = ClipType.interview
        then AnalysisRoute.heavyPass HeavyMode.transcribe
        else AnalysisRoute.shotTypeDetection) = AnalysisRoute.shotTypeDetection
    rw [if_neg ?_]
    rintro (hc | hc)
    · rw [hv] at hc
      exact MediaCategory.noConfusion hc
    · exact hi hc

/-- C8 amended-claim witness: a known audio asset is dispatched to the
transcription job by default. -/
theorem C8_witness :
    ForensicSurveyor.routePhaseV1 knownAudioFile none =
      AnalysisRoute.heavyPass HeavyMode.transcribe :=
  (C8_default_dispatch knownAudioFile).1 (Or.inl rfl)
